import Mathlib

/-!
Shallow embedding of the SuraSmart facial-recognition core:
the case lifecycle state machine (`backend/facial_recognition/state_machine.py`),
the `MissingPerson` / `FacialMatch` / `SearchSession` model logic
(`backend/facial_recognition/models.py`), the search endpoint and its helpers
(`backend/facial_recognition/views.py`), and the bias audit engine
(`backend/sura_smart/bias_audit/auditor.py`).

Numeric values that the Python code holds as floats are embedded as rationals;
timestamps are abstract natural-number instants (`django.utils.timezone.now()`
is passed in explicitly as `tzNow`).
-/

namespace SuraSmart

/-- The six case statuses of `MissingPerson.STATUS_CHOICES` (models.py lines 11-18),
which are also the keys of `CaseStateMachine.VALID_TRANSITIONS`. -/
inductive CaseStatus where
  | REPORTED
  | UNDER_INVESTIGATION
  | MATCH_FOUND
  | PENDING_CLOSURE
  | NO_MATCH
  | CLOSED
deriving DecidableEq, Repr

/-- The fields of `facial_recognition.models.MissingPerson` that the state machine
and the retention logic read or write (models.py lines 20-59).  Note that the
model declares **no** `assigned_officer` field.  `created_at` is `auto_now_add`
(absent until first save), `resolved_at` and `retention_expiry_date` are nullable. -/
structure MissingPerson where
  status : CaseStatus
  dual_signature_family : Bool
  dual_signature_police : Bool
  resolved_at : Option Nat
  retention_expiry_date : Option Nat
  created_at : Option Nat
deriving DecidableEq, Repr

/-- Embeds `timedelta(days=5*365)` from `MissingPerson.save` (models.py line 88), in days. -/
def retentionDefaultDays : Nat := 5 * 365

/-- Embeds the `MissingPerson.save` override (models.py lines 72-90): on a save with status
`CLOSED` and no resolution timestamp yet, set `resolved_at := tz.now()` and
`retention_expiry_date := resolved_at` ("Purge immediately on close per TRD 5.2");
otherwise, if `retention_expiry_date` is unset, default it to `now + 5 years`
where `now` is `created_at` if set, else `tz.now()`. -/
def missingPersonSave (tzNow : Nat) (c : MissingPerson) : MissingPerson :=
  let now := c.created_at.getD tzNow
  if c.status = CaseStatus.CLOSED ∧ c.resolved_at = none then
    { c with resolved_at := some tzNow, retention_expiry_date := some tzNow }
  else if c.retention_expiry_date = none then
    { c with retention_expiry_date := some (now + retentionDefaultDays) }
  else c

/-- Embeds `CaseStateMachine.VALID_TRANSITIONS` (state_machine.py lines 14-21). -/
def validTransitions : CaseStatus → List CaseStatus
  | .REPORTED => [.UNDER_INVESTIGATION, .CLOSED]
  | .UNDER_INVESTIGATION => [.MATCH_FOUND, .NO_MATCH, .CLOSED]
  | .MATCH_FOUND => [.PENDING_CLOSURE, .UNDER_INVESTIGATION, .CLOSED]
  | .PENDING_CLOSURE => [.CLOSED, .UNDER_INVESTIGATION]
  | .NO_MATCH => [.UNDER_INVESTIGATION, .CLOSED]
  | .CLOSED => []

/-- The audit-trail actions logged through `BlockchainService.log_event`:
`f"TRANSITION_{current_state}_TO_{new_state}"` (state_machine.py line 47) and
`f"SIGNATURE_ADDED_BY_{actor_role}"` (state_machine.py line 79). -/
inductive AuditAction where
  | transition (src dst : CaseStatus)
  | signatureAdded (role : String)
deriving DecidableEq, Repr

/-- Errors raised by the state machine.  `invalidTransition` is the
`ValueError(f"Invalid transition from {current_state} to {new_state}")` of
state_machine.py line 33 and carries the two state names; `invalidState` is the
`ValueError` of line 63; `attributeError` is the `AttributeError` raised at
line 73 when `self.case.assigned_officer_id` is evaluated, because
`MissingPerson` (models.py) defines no `assigned_officer` field. -/
inductive StateMachineError where
  | invalidTransition (current requested : CaseStatus)
  | invalidState
  | attributeError
deriving DecidableEq, Repr

/-- Embeds `CaseStateMachine.transition_to` (state_machine.py lines 26-52): reject a
target that is not in the transition table (raising before any mutation, so the
case is left unchanged), otherwise set the status, stamp `resolved_at` when
entering `CLOSED`, run `MissingPerson.save`, and log the transition event. -/
def transition_to (tzNow : Nat) (c : MissingPerson) (new_state : CaseStatus) :
    Except StateMachineError (MissingPerson × AuditAction) :=
  if new_state ∈ validTransitions c.status then
    let c1 : MissingPerson := { c with status := new_state }
    let c2 : MissingPerson :=
      if new_state = CaseStatus.CLOSED then { c1 with resolved_at := some tzNow } else c1
    Except.ok (missingPersonSave tzNow c2, AuditAction.transition c.status new_state)
  else
    Except.error (StateMachineError.invalidTransition c.status new_state)

/-- The status guard of `toggle_signature` (state_machine.py lines 58-63):
a case that is not `PENDING_CLOSURE` is promoted when it is `MATCH_FOUND`,
rejected otherwise. -/
def signaturePromote (c : MissingPerson) : Except StateMachineError MissingPerson :=
  if c.status ≠ CaseStatus.PENDING_CLOSURE then
    if c.status = CaseStatus.MATCH_FOUND then
      Except.ok { c with status := CaseStatus.PENDING_CLOSURE }
    else
      Except.error StateMachineError.invalidState
  else
    Except.ok c

/-- The flag update of `toggle_signature` (state_machine.py lines 65-68):
only the roles `family_member` and `police_officer` set a flag. -/
def signatureApply (c : MissingPerson) (actor_role : String) : MissingPerson :=
  if actor_role = "family_member" then { c with dual_signature_family := true }
  else if actor_role = "police_officer" then { c with dual_signature_police := true }
  else c

/-- Embeds `CaseStateMachine.toggle_signature` (state_machine.py lines 54-82).
Returns the saved case, the `closed?` boolean the Python function returns, and
the audit actions logged by this call.  The branch where both signature flags
are set evaluates `self.case.assigned_officer_id` (line 73) before calling
`transition_to`; `MissingPerson` has no such attribute, so the call raises
`AttributeError` there — embedded as `StateMachineError.attributeError` — with
the flag updates already saved. -/
def toggle_signature (tzNow : Nat) (c : MissingPerson) (actor_role : String) :
    Except StateMachineError (MissingPerson × Bool × List AuditAction) :=
  match signaturePromote c with
  | Except.error e => Except.error e
  | Except.ok c1 =>
    let c3 := missingPersonSave tzNow (signatureApply c1 actor_role)
    if c3.dual_signature_family = true ∧ c3.dual_signature_police = true then
      -- line 73: `self.case.assigned_officer_id or self.case.reported_by` —
      -- argument evaluation raises AttributeError before transition_to runs
      Except.error StateMachineError.attributeError
    else
      Except.ok (c3, false, [AuditAction.signatureAdded actor_role])

/-- Embeds `_determine_hitl` (views.py lines 110-115): review flag iff
`0.90 <= confidence < 0.98`. -/
def determine_hitl (confidence : ℚ) : Bool :=
  decide ((0.90 : ℚ) ≤ confidence ∧ confidence < (0.98 : ℚ))

/-- Round to nearest integer, ties to even — the rounding mode of Python's
built-in `round`. -/
def roundHalfEven (q : ℚ) : ℤ :=
  if q - ⌊q⌋ < (1 : ℚ)/2 then ⌊q⌋
  else if (1 : ℚ)/2 < q - ⌊q⌋ then ⌊q⌋ + 1
  else if ⌊q⌋ % 2 = 0 then ⌊q⌋ else ⌊q⌋ + 1

/-- Python's `round(q, ndigits)`. -/
def pyRound (ndigits : Nat) (q : ℚ) : ℚ :=
  (roundHalfEven (q * 10 ^ ndigits) : ℚ) / 10 ^ ndigits

/-- Embeds `FacialMatch.MATCH_STATUS` (models.py lines 152-157). -/
inductive MatchStatus where
  | pending_review
  | verified
  | false_positive
  | rejected
deriving DecidableEq, Repr

/-- The fields of `facial_recognition.models.FacialMatch` that the search
endpoint's upsert reads or writes (models.py lines 149-232); `missing_person`
and `source_image` are the foreign keys of the `(case, source record)` key. -/
structure FacialMatch where
  missing_person : Nat
  source_image : Nat
  match_confidence : ℚ
  distance_metric : ℚ
  requires_human_review : Bool
  status : MatchStatus
deriving DecidableEq, Repr

/-- A row of `facial_recognition.models.FacialRecognitionImage` as the search
endpoint sees it (models.py lines 93-138): its id, owning case, processing
status, and the JSON embedding (`none` = SQL null; `some []` = empty list,
which the scan loop also skips as falsy). -/
structure DbImage where
  id : Nat
  missing_person : Nat
  status : String
  face_embedding : Option (List ℚ)
deriving DecidableEq, Repr

/-- Python's `str.lower`, characterwise (the parsed tokens are ASCII). -/
def pyLower (s : String) : String := String.mk (s.data.map Char.toLower)

/-- Consent parsing of `search_facial_recognition` (views.py lines 445-447):
`request.data.get('consent_given', 'false').lower() in ('true', '1', 'yes')`. -/
def parseConsent (raw : String) : Bool :=
  decide (pyLower raw ∈ (["true", "1", "yes"] : List String))

/-- The inputs of one call to `search_facial_recognition` that the endpoint
logic depends on: whether `'image' in request.FILES`, the raw
`consent_given` form value, and the result of `_extract_embedding` on the
uploaded image (the external DeepFace collaborator; `none` = no face). -/
structure SearchRequest where
  has_image : Bool
  consent_raw : String
  query_embedding : Option (List ℚ)
deriving DecidableEq, Repr

/-- The data of the 200 response of `search_facial_recognition` together with
the post-search `FacialMatch` table and the session fields it persisted. -/
structure SearchResult where
  consent_given : Bool
  total_candidates_searched : Nat
  match_found : Bool
  matchTable : List FacialMatch
  best_match : Option FacialMatch
  best_confidence : ℚ
deriving DecidableEq, Repr

/-- Outcome of `search_facial_recognition`: 400 when no image was uploaded
(views.py line 441), 422 when no face was detected (line 467, the session is
still recorded with the parsed consent and zero candidates), or the 200 path. -/
inductive SearchOutcome where
  | badRequest
  | unprocessable (consent_given : Bool)
  | ok (r : SearchResult)
deriving DecidableEq, Repr

/-- Key test for the `(case, source record)` upsert key of the Match Ledger:
`missing_person=best_db_image.missing_person, source_image=best_db_image`
(views.py lines 514-516). -/
def matchKeyP (cid sid : Nat) (m : FacialMatch) : Bool :=
  decide (m.missing_person = cid ∧ m.source_image = sid)

/-- Number of `FacialMatch` rows for one `(case, source record)` key. -/
def countKey (db : List FacialMatch) (cid sid : Nat) : Nat :=
  (db.filter (matchKeyP cid sid)).length

/-- Replace the first element satisfying `p` (the row Django's
`get_or_create` found and `match.save()` rewrites in place). -/
def replaceFirst (p : FacialMatch → Bool) (m : FacialMatch) :
    List FacialMatch → List FacialMatch
  | [] => []
  | x :: xs => if p x then m :: xs else x :: replaceFirst p m xs

/-- The Match Ledger upsert of views.py lines 514-531:
`FacialMatch.objects.get_or_create(missing_person=…, source_image=…,
defaults={confidence, distance=round(1-confidence, 6), hitl flag,
status defaulting to pending_review})`; when the row already exists, update
`match_confidence`, `distance_metric` and `requires_human_review` in place.
Returns the new table and the persisted row. -/
def upsertMatch (db : List FacialMatch) (cid sid : Nat) (conf : ℚ) (hitl : Bool) :
    List FacialMatch × FacialMatch :=
  match db.find? (matchKeyP cid sid) with
  | none =>
    let m : FacialMatch :=
      { missing_person := cid, source_image := sid, match_confidence := conf,
        distance_metric := pyRound 6 (1 - conf), requires_human_review := hitl,
        status := MatchStatus.pending_review }
    (db ++ [m], m)
  | some m0 =>
    let m : FacialMatch :=
      { m0 with
        match_confidence := conf,
        distance_metric := pyRound 6 (1 - conf),
        requires_human_review := hitl }
    (replaceFirst (matchKeyP cid sid) m db, m)

/-- The candidate scan of views.py lines 486-499: iterate the population,
skip falsy embeddings (`if not stored_embedding: continue`), compute
`_cosine_similarity` (abstracted as `sim`, a clamped similarity function), and
keep the strictly greater best (`if confidence > best_confidence`), starting
from `(None, 0.0)`. -/
def searchLoop (sim : List ℚ → List ℚ → ℚ) (q : List ℚ) :
    List DbImage → Option DbImage × ℚ → Option DbImage × ℚ
  | [], acc => acc
  | img :: rest, (best, bconf) =>
    match img.face_embedding with
    | none => searchLoop sim q rest (best, bconf)
    | some emb =>
      if emb = [] then searchLoop sim q rest (best, bconf)
      else
        let conf := sim q emb
        if bconf < conf then searchLoop sim q rest (some img, conf)
        else searchLoop sim q rest (best, bconf)

/-- Whether one loop iteration actually compares a row: the scan of views.py
line 492 skips falsy embeddings (`if not stored_embedding: continue`), i.e.
both SQL null and the empty list. -/
def hasUsableEmbedding (i : DbImage) : Bool :=
  match i.face_embedding with
  | some e => decide (e ≠ [])
  | none => false

/-- The similarity the scan computes for a compared row
(`_cosine_similarity(query_embedding, stored_embedding)`, views.py line 495). -/
def imgScore (sim : List ℚ → List ℚ → ℚ) (q : List ℚ) (i : DbImage) : ℚ :=
  sim q (i.face_embedding.getD [])

/-- The maximum similarity over the compared rows of `l`, folded from the
loop's initial `best_confidence` `v`. -/
def maxFrom (sim : List ℚ → List ℚ → ℚ) (q : List ℚ) (v : ℚ) (l : List DbImage) : ℚ :=
  (l.filter hasUsableEmbedding).foldl (fun a i => max a (imgScore sim q i)) v

/-- The first-encountered compared row whose similarity equals `M` — the
spec's "on ties, the first-encountered candidate in population iteration
order wins". -/
def firstAtMax (sim : List ℚ → List ℚ → ℚ) (q : List ℚ) (l : List DbImage) (M : ℚ) :
    Option DbImage :=
  (l.filter hasUsableEmbedding).find? (fun i => decide (imgScore sim q i = M))

/-- The population queryset of views.py lines 480-482:
`FacialRecognitionImage.objects.filter(status='completed').exclude(face_embedding__isnull=True)`. -/
def eligibleImages (images : List DbImage) : List DbImage :=
  images.filter (fun i => decide (i.status = "completed" ∧ i.face_embedding ≠ none))

/-- Embeds `search_facial_recognition` (views.py lines 425-575), over the current
image table and `FacialMatch` table.  `sim` abstracts `_cosine_similarity`
(a clamped cosine similarity on float vectors).  Note: the parsed consent is
stored on the created `SearchSession` but never checked — the scan and the
Match Ledger upsert run regardless of its value. -/
def search_facial_recognition (sim : List ℚ → List ℚ → ℚ) (req : SearchRequest)
    (images : List DbImage) (matchesDb : List FacialMatch) : SearchOutcome :=
  if req.has_image = false then SearchOutcome.badRequest
  else
    let consent := parseConsent req.consent_raw
    match req.query_embedding with
    | none => SearchOutcome.unprocessable consent
    | some q =>
      let db_images := eligibleImages images
      let scan := searchLoop sim q db_images (none, 0)
      match scan with
      | (some best_img, best_conf) =>
        if (0.50 : ℚ) ≤ best_conf then
          let hitl := determine_hitl best_conf
          let up := upsertMatch matchesDb best_img.missing_person best_img.id best_conf hitl
          SearchOutcome.ok
            { consent_given := consent, total_candidates_searched := db_images.length,
              match_found := true, matchTable := up.1, best_match := some up.2,
              best_confidence := best_conf }
        else
          SearchOutcome.ok
            { consent_given := consent, total_candidates_searched := db_images.length,
              match_found := false, matchTable := matchesDb, best_match := none,
              best_confidence := best_conf }
      | (none, best_conf) =>
        SearchOutcome.ok
          { consent_given := consent, total_candidates_searched := db_images.length,
            match_found := false, matchTable := matchesDb, best_match := none,
            best_confidence := best_conf }

/-- Session fields that `close_session` writes
(models.py lines 319-394). -/
structure Session where
  is_closed : Bool
  closure_action : Option String
  closure_notes : String
  closed_at : Option Nat
deriving DecidableEq, Repr

/-- Errors of `SearchSessionViewSet.close` (views.py lines 391-405):
"Search session is already closed" and "Invalid closure action". -/
inductive CloseError where
  | alreadyClosed
  | invalidAction
deriving DecidableEq, Repr

/-- Embeds `SearchSession.close_session` (models.py lines 387-407): record the
action, notes and timestamp and close the session; if the action is
`finalize` and a best match is attached (`if action == 'finalize' and
self.best_match:`), mark that match verified and set its case's status to
`CLOSED` (the case then runs `MissingPerson.save`).  `m` is the session's
`best_match` row and `c` that row's `missing_person` case. -/
def close_session (tzNow : Nat) (s : Session) (action : String) (notes : String)
    (m : Option FacialMatch) (c : MissingPerson) :
    Session × Option FacialMatch × MissingPerson :=
  let s2 : Session :=
    { s with
      closure_action := some action, closure_notes := notes,
      is_closed := true, closed_at := some tzNow }
  if action = "finalize" then
    match m with
    | some m0 =>
      (s2, some { m0 with status := MatchStatus.verified },
        missingPersonSave tzNow { c with status := CaseStatus.CLOSED })
    | none => (s2, m, c)
  else (s2, m, c)

/-- Embeds `SearchSessionViewSet.close` (views.py lines 391-418): reject a second
closure of an already-closed session, reject an unrecognized action token,
otherwise delegate to `close_session`. -/
def closeSessionView (tzNow : Nat) (s : Session) (action : String) (notes : String)
    (m : Option FacialMatch) (c : MissingPerson) :
    Except CloseError (Session × Option FacialMatch × MissingPerson) :=
  if s.is_closed = true then Except.error CloseError.alreadyClosed
  else if action ∉ (["save", "finalize", "search_again", "no_match"] : List String) then
    Except.error CloseError.invalidAction
  else Except.ok (close_session tzNow s action notes m c)

/-- A prediction record consumed by `BiasAuditor.disaggregated_evaluation`
(auditor.py lines 71-79): labels, confidence and the three demographic tags. -/
structure Pred where
  y_true : Int
  y_pred : Int
  confidence : ℚ
  gender : String
  skin_type : String
  age_group : String
deriving DecidableEq, Repr

/-- The per-group metrics dict of `BiasAuditor._compute_group_metrics`
(auditor.py lines 149-156). -/
structure GroupMetrics where
  total : Nat
  tp : Nat
  tn : Nat
  fp : Nat
  fn : Nat
  accuracy : ℚ
  fpr : ℚ
  tpr : ℚ
  fnr : ℚ
deriving DecidableEq, Repr

/-- Embeds `BiasAuditor._compute_group_metrics` (auditor.py lines 134-156): confusion
counts, `accuracy = (tp+tn)/total` (0 when empty), `fpr = fp/(fp+tn)` and
`tpr = tp/(tp+fn)` (0 on zero denominators), `fnr = 1 - tpr`; `accuracy` is
reported rounded to 4 decimals and the rates to 6. -/
def compute_group_metrics (preds : List Pred) : GroupMetrics :=
  let tp := (preds.filter (fun p => decide (p.y_pred = 1 ∧ p.y_true = 1))).length
  let tn := (preds.filter (fun p => decide (p.y_pred = 0 ∧ p.y_true = 0))).length
  let fp := (preds.filter (fun p => decide (p.y_pred = 1 ∧ p.y_true = 0))).length
  let fn := (preds.filter (fun p => decide (p.y_pred = 0 ∧ p.y_true = 1))).length
  let total := preds.length
  let accuracy : ℚ := if 0 < total then ((tp : ℚ) + tn) / total else 0
  let fpr : ℚ := if 0 < fp + tn then (fp : ℚ) / ((fp : ℚ) + tn) else 0
  let tpr : ℚ := if 0 < tp + fn then (tp : ℚ) / ((tp : ℚ) + fn) else 0
  { total := total, tp := tp, tn := tn, fp := fp, fn := fn,
    accuracy := pyRound 4 accuracy, fpr := pyRound 6 fpr, tpr := pyRound 6 tpr,
    fnr := pyRound 6 (1 - tpr) }

/-- Embeds `pred.get(axis, 'unknown')` for the three demographic axes
(auditor.py line 126). -/
def axisValue (axis : String) (p : Pred) : String :=
  if axis = "gender" then p.gender
  else if axis = "skin_type" then p.skin_type
  else if axis = "age_group" then p.age_group
  else "unknown"

/-- The group keys of `_evaluate_axis`'s `groups` dict in insertion order
(`groups.setdefault(group, []).append(pred)`, auditor.py lines 124-127). -/
def groupKeys (axis : String) (preds : List Pred) : List String :=
  preds.foldl
    (fun ks p => if axisValue axis p ∈ ks then ks else ks ++ [axisValue axis p]) []

/-- Embeds `BiasAuditor._evaluate_axis` (auditor.py lines 120-132): group the
predictions by the axis value and compute metrics per group, keys in first
insertion order. -/
def evaluate_axis (preds : List Pred) (axis : String) : List (String × GroupMetrics) :=
  (groupKeys axis preds).map
    (fun g => (g, compute_group_metrics (preds.filter (fun p => decide (axisValue axis p = g)))))

/-- The accuracy list of the variance check (auditor.py line 102):
`[v['accuracy'] for v in axis_data.values() if v.get('total', 0) > 0]`. -/
def axisAccuracies (preds : List Pred) (axis : String) : List ℚ :=
  (evaluate_axis preds axis).filterMap
    (fun gv => if 0 < gv.2.total then some gv.2.accuracy else none)

/-- Python's `max` on a non-empty list (0 on empty; the auditor only calls it
under a length ≥ 2 guard). -/
def listMax : List ℚ → ℚ
  | [] => 0
  | x :: xs => xs.foldl max x

/-- Python's `min` on a non-empty list (0 on empty; the auditor only calls it
under a length ≥ 2 guard). -/
def listMin : List ℚ → ℚ
  | [] => 0
  | x :: xs => xs.foldl min x

/-- Embeds `BiasAuditor.MAX_BIAS_VARIANCE` (auditor.py line 52): 2%. -/
def MAX_BIAS_VARIANCE : ℚ := 0.02

/-- One iteration of the variance-check loop (auditor.py lines 100-109): an
axis with fewer than two sampled group accuracies is skipped; otherwise the
spread `max - min` is compared against the limit and an alert naming the axis
and the spread is appended when it exceeds the limit. -/
def varianceStep (preds : List Pred) (alerts : List (String × ℚ)) (axis : String) :
    List (String × ℚ) :=
  let accs := axisAccuracies preds axis
  if accs.length < 2 then alerts
  else
    let variance := listMax accs - listMin accs
    if MAX_BIAS_VARIANCE < variance then alerts ++ [(axis, variance)] else alerts

/-- The full variance-alert list over the three axes (auditor.py lines 99-109).
An alert `(axis, spread)` models the formatted string
`f"Variance on '{axis}': {variance:.2%} exceeds {limit:.0%} limit"`. -/
def variance_alerts (preds : List Pred) : List (String × ℚ) :=
  (["gender", "skin_type", "age_group"] : List String).foldl (varianceStep preds) []

/-- The audit report of `disaggregated_evaluation` (auditor.py lines 87-117). -/
structure AuditReport where
  total_samples : Nat
  global_metrics : GroupMetrics
  by_gender : List (String × GroupMetrics)
  by_skin_type : List (String × GroupMetrics)
  by_age_group : List (String × GroupMetrics)
  alerts : List (String × ℚ)
  audit_passed : Bool
deriving DecidableEq, Repr

/-- Embeds `BiasAuditor.disaggregated_evaluation` (auditor.py lines 63-118): empty
input raises `ValueError("No predictions provided for audit.")`; otherwise the
report carries global metrics, per-axis per-group metrics, the variance alerts
and `audit_passed = (len(variance_alerts) == 0)`. -/
def disaggregated_evaluation (preds : List Pred) : Except String AuditReport :=
  if preds = [] then Except.error "No predictions provided for audit."
  else
    Except.ok
      { total_samples := preds.length,
        global_metrics := compute_group_metrics preds,
        by_gender := evaluate_axis preds "gender",
        by_skin_type := evaluate_axis preds "skin_type",
        by_age_group := evaluate_axis preds "age_group",
        alerts := variance_alerts preds,
        audit_passed := decide ((variance_alerts preds).length = 0) }

/-- The claim's notion of an axis spread: max group accuracy minus min group
accuracy over the sampled groups (0 when fewer than two groups, where max and
min coincide). -/
def axisSpread (preds : List Pred) (axis : String) : ℚ :=
  let accs := axisAccuracies preds axis
  if accs.length < 2 then 0 else listMax accs - listMin accs

end SuraSmart

namespace SuraSmart

/-- Saving never changes the case status. -/
lemma missingPersonSave_status (tzNow : Nat) (c : MissingPerson) :
    (missingPersonSave tzNow c).status = c.status := by
  unfold missingPersonSave
  dsimp only
  split
  · rfl
  · split <;> rfl

/-- The status guard of `toggle_signature` accepts exactly `MATCH_FOUND`
(promoting it) and `PENDING_CLOSURE` (left as is). -/
lemma signaturePromote_ok (c : MissingPerson)
    (h : c.status = CaseStatus.MATCH_FOUND ∨ c.status = CaseStatus.PENDING_CLOSURE) :
    signaturePromote c = Except.ok { c with status := CaseStatus.PENDING_CLOSURE } := by
  rcases h with h | h
  · simp [signaturePromote, h]
  · cases c
    subst h
    simp [signaturePromote]

/-- A role other than `family_member` / `police_officer` sets no flag. -/
lemma signatureApply_other (c : MissingPerson) (role : String)
    (h1 : role ≠ "family_member") (h2 : role ≠ "police_officer") :
    signatureApply c role = c := by
  simp [signatureApply, h1, h2]

/-- Saving never changes the signature flags. -/
lemma missingPersonSave_flags (tzNow : Nat) (c : MissingPerson) :
    (missingPersonSave tzNow c).dual_signature_family = c.dual_signature_family
    ∧ (missingPersonSave tzNow c).dual_signature_police = c.dual_signature_police := by
  unfold missingPersonSave
  dsimp only
  split
  · exact ⟨rfl, rfl⟩
  · split <;> exact ⟨rfl, rfl⟩

/-- Claim C4: For every confidence score `c` in `[0,1]`, the Review Gate
(`_determine_hitl`) returns `true` iff `0.90 ≤ c < 0.98`; in particular
`c = 0.89` and `c = 0.98` give no review obligation while `c = 0.90` and
`c = 0.975` require review. -/
theorem hitl_band_iff :
    (∀ c : ℚ, 0 ≤ c → c ≤ 1 →
      (determine_hitl c = true ↔ ((0.90 : ℚ) ≤ c ∧ c < (0.98 : ℚ))))
    ∧ determine_hitl (0.89 : ℚ) = false
    ∧ determine_hitl (0.90 : ℚ) = true
    ∧ determine_hitl (0.975 : ℚ) = true
    ∧ determine_hitl (0.98 : ℚ) = false := by
  refine ⟨fun c _ _ => ?_, ?_, ?_, ?_, ?_⟩ <;> simp [determine_hitl] <;> norm_num

/-- Witness for `hitl_band_iff`: at the concrete confidence `0.95`, the
hypotheses `0 ≤ c ≤ 1` hold and the Review Gate requires review. -/
theorem hitl_band_iff_witness : determine_hitl (0.95 : ℚ) = true :=
  (hitl_band_iff.1 (0.95 : ℚ) (by norm_num) (by norm_num)).mpr (by norm_num)

/-- Claim C5: A requested state outside the transition table makes
`transition_to` fail with the invalid-transition error carrying the current and
requested states (the exception is raised before any field assignment, so the
case is untouched); every transition listed in the table succeeds and sets the
requested status; `CLOSED` has no successors. -/
theorem transition_table_enforced (tzNow : Nat) (c : MissingPerson) (target : CaseStatus) :
    (target ∉ validTransitions c.status →
      transition_to tzNow c target =
        Except.error (StateMachineError.invalidTransition c.status target))
    ∧ (target ∈ validTransitions c.status →
      ∃ c' ev, transition_to tzNow c target = Except.ok (c', ev) ∧ c'.status = target)
    ∧ validTransitions CaseStatus.CLOSED = [] := by
  refine ⟨fun h => ?_, fun h => ?_, rfl⟩
  · simp [transition_to, h]
  · unfold transition_to
    rw [if_pos h]
    refine ⟨_, _, rfl, ?_⟩
    rw [missingPersonSave_status]
    split <;> rfl

/-- Witness for `transition_table_enforced`: for a freshly reported case,
`REPORTED → MATCH_FOUND` is rejected naming both states, while
`REPORTED → CLOSED` succeeds. -/
theorem transition_table_enforced_witness :
    transition_to 3 ⟨CaseStatus.REPORTED, false, false, none, some 1825, some 0⟩
        CaseStatus.MATCH_FOUND =
      Except.error (StateMachineError.invalidTransition CaseStatus.REPORTED
        CaseStatus.MATCH_FOUND)
    ∧ ∃ c' ev,
        transition_to 3 ⟨CaseStatus.REPORTED, false, false, none, some 1825, some 0⟩
          CaseStatus.CLOSED = Except.ok (c', ev) ∧ c'.status = CaseStatus.CLOSED :=
  ⟨(transition_table_enforced 3 _ _).1 (by decide),
   (transition_table_enforced 3 _ _).2.1 (by decide)⟩

/-- Claim C2, code-bug evidence.  A signature call that makes both flags true is supposed
to auto-transition the case to `CLOSED` recording "dual signature confirmed"
(state_machine.py line 73), but that line evaluates
`self.case.assigned_officer_id` and `MissingPerson` declares no
`assigned_officer` field, so the call raises `AttributeError` after saving both
flags and the case never reaches `CLOSED`: a `PENDING_CLOSURE` case with the
family flag already set, signed by a `police_officer`, errors out. -/
theorem dual_signature_close_crashes :
    toggle_signature 9
        ⟨CaseStatus.PENDING_CLOSURE, true, false, none, some 1825, some 0⟩
        "police_officer" =
      Except.error StateMachineError.attributeError := by
  rfl

/-- Claim C3, code-bug evidence.  Closing a case through `transition_to` sets
`resolved_at := timezone.now()` *before* calling `save`, so the
`status == 'CLOSED' and not resolved_at` branch of `MissingPerson.save`
(models.py line 83) is skipped and `retention_expiry_date` keeps the stale
"creation + 5 years" value instead of being set equal to the resolution
timestamp: a freshly reported case (created at day 0, retention defaulted to
day 1825) closed at day 10 ends with `resolved_at = 10` but
`retention_expiry_date = 1825`. -/
theorem closed_transition_keeps_stale_retention :
    transition_to 10 ⟨CaseStatus.REPORTED, false, false, none, some 1825, some 0⟩
        CaseStatus.CLOSED =
      Except.ok (⟨CaseStatus.CLOSED, false, false, some 10, some 1825, some 0⟩,
        AuditAction.transition CaseStatus.REPORTED CaseStatus.CLOSED)
    ∧ (⟨CaseStatus.CLOSED, false, false, some 10, some 1825, some 0⟩ :
        MissingPerson).retention_expiry_date ≠
      (⟨CaseStatus.CLOSED, false, false, some 10, some 1825, some 0⟩ :
        MissingPerson).resolved_at :=
  ⟨rfl, by decide⟩

/-- Claim C10, counterexample.  The claim fails for a case whose two signature
flags are already both set (a state the dual-signature crash of
state_machine.py line 73 actually leaves behind): signing such a
`PENDING_CLOSURE` case with the unknown role `government_official` does not
succeed without error — it reaches the dual-closure branch and raises. -/
theorem unknown_role_signature_cex :
    toggle_signature 0
        ⟨CaseStatus.PENDING_CLOSURE, true, true, none, some 1825, some 0⟩
        "government_official" =
      Except.error StateMachineError.attributeError
    ∧ (⟨CaseStatus.PENDING_CLOSURE, true, true, none, some 1825, some 0⟩ :
        MissingPerson).status = CaseStatus.PENDING_CLOSURE :=
  ⟨rfl, rfl⟩

/-- Claim C10, amended.  For every case in `MATCH_FOUND` or `PENDING_CLOSURE`
whose two signature flags are not already both set, invoking `toggle_signature`
with a role other than `family_member` / `police_officer` succeeds without
error: it sets neither flag, does not close the case (result status is
`PENDING_CLOSURE`, returned closed-boolean is `false`), records a
signature-added audit event for that role, and still promotes a `MATCH_FOUND`
case to `PENDING_CLOSURE`. -/
theorem unknown_role_signature (tzNow : Nat) (c : MissingPerson) (role : String)
    (hstate : c.status = CaseStatus.MATCH_FOUND ∨ c.status = CaseStatus.PENDING_CLOSURE)
    (hrole : role ≠ "family_member" ∧ role ≠ "police_officer")
    (hflags : ¬(c.dual_signature_family = true ∧ c.dual_signature_police = true)) :
    ∃ c', toggle_signature tzNow c role =
        Except.ok (c', false, [AuditAction.signatureAdded role])
      ∧ c'.dual_signature_family = c.dual_signature_family
      ∧ c'.dual_signature_police = c.dual_signature_police
      ∧ c'.status = CaseStatus.PENDING_CLOSURE := by
  have hP := signaturePromote_ok c hstate
  refine ⟨missingPersonSave tzNow { c with status := CaseStatus.PENDING_CLOSURE },
    ?_, ?_, ?_, ?_⟩
  · unfold toggle_signature
    rw [hP]
    dsimp only
    rw [signatureApply_other _ _ hrole.1 hrole.2]
    rw [if_neg]
    have hfl := missingPersonSave_flags tzNow { c with status := CaseStatus.PENDING_CLOSURE }
    rw [hfl.1, hfl.2]
    exact hflags
  · exact (missingPersonSave_flags _ _).1
  · exact (missingPersonSave_flags _ _).2
  · exact missingPersonSave_status _ _

/-- Claim C1, code-bug evidence.  A search request whose consent flag is false is *not*
rejected: `search_facial_recognition` parses `consent_given`, stores it on the
session, and then runs the comparison loop and the Match Ledger upsert anyway.
With `consent_given = "false"`, one extraction-complete candidate and a
similarity of 1, the endpoint returns the 200 match-found response, scans the
candidate and persists a new `FacialMatch` — no validation error occurs. -/
theorem consent_not_enforced :
    search_facial_recognition (fun _ _ => (1 : ℚ)) ⟨true, "false", some [1]⟩
        [⟨1, 7, "completed", some [1]⟩] [] =
      SearchOutcome.ok
        { consent_given := false, total_candidates_searched := 1,
          match_found := true,
          matchTable := [⟨7, 1, 1, pyRound 6 (1 - 1), false, MatchStatus.pending_review⟩],
          best_match := some ⟨7, 1, 1, pyRound 6 (1 - 1), false, MatchStatus.pending_review⟩,
          best_confidence := 1 }
    ∧ parseConsent "false" = false := by
  constructor
  · simp only [search_facial_recognition, eligibleImages, searchLoop, upsertMatch,
      matchKeyP, determine_hitl, parseConsent]
    norm_num
    decide
  · decide

/-- Lemma: `replaceFirst` preserves the table length. -/
lemma length_replaceFirst (p : FacialMatch → Bool) (m : FacialMatch) :
    ∀ db : List FacialMatch, (replaceFirst p m db).length = db.length := by
  intro db
  induction db with
  | nil => rfl
  | cons x xs ih =>
    by_cases hx : p x <;> simp [replaceFirst, hx, ih]

/-- Replacing the first `p`-row by another `p`-row keeps the number of
`p`-rows. -/
lemma filter_length_replaceFirst (p : FacialMatch → Bool) (m : FacialMatch)
    (hm : p m = true) :
    ∀ db : List FacialMatch,
      ((replaceFirst p m db).filter p).length = (db.filter p).length := by
  intro db
  induction db with
  | nil => rfl
  | cons x xs ih =>
    by_cases hx : p x
    · simp [replaceFirst, hx, List.filter_cons, hm]
    · simp [replaceFirst, hx, List.filter_cons, ih]

/-- Claim C8: The Match Ledger upsert keyed by `(case, source record)`: starting
from a table with at most one row for the pair, after the upsert exactly one
row exists for it; when no row existed, the created row has status
`pending_review`, the Review Gate's flag and the new confidence; when a row
existed, it is updated in place — confidence, distance and review flag are
rewritten, the status is unchanged, and no duplicate row is created (the table
length is unchanged). -/
theorem match_ledger_upsert (db : List FacialMatch) (cid sid : Nat) (conf : ℚ)
    (hitl : Bool) (hinv : countKey db cid sid ≤ 1) :
    ∀ db' m, upsertMatch db cid sid conf hitl = (db', m) →
      countKey db' cid sid = 1
      ∧ (countKey db cid sid = 0 →
          db' = db ++ [m] ∧ m.status = MatchStatus.pending_review
          ∧ m.requires_human_review = hitl ∧ m.match_confidence = conf
          ∧ m.missing_person = cid ∧ m.source_image = sid)
      ∧ (∀ m0 ∈ db, matchKeyP cid sid m0 = true →
          db'.length = db.length ∧ m.status = m0.status
          ∧ m.match_confidence = conf ∧ m.distance_metric = pyRound 6 (1 - conf)
          ∧ m.requires_human_review = hitl) := by
  intro db' m hup
  unfold upsertMatch at hup
  cases hfind : db.find? (matchKeyP cid sid) with
  | none =>
    simp only [hfind] at hup
    rw [Prod.mk.injEq] at hup
    obtain ⟨h1, h2⟩ := hup
    subst h1
    subst h2
    have hnone : ∀ x ∈ db, ¬ matchKeyP cid sid x = true :=
      fun x hx => by simpa using List.find?_eq_none.mp hfind x hx
    have hzero : (db.filter (matchKeyP cid sid)).length = 0 := by
      simp only [List.length_eq_zero]
      exact List.filter_eq_nil_iff.mpr fun a ha => by simpa using hnone a ha
    refine ⟨?_, fun _ => ⟨rfl, rfl, rfl, rfl, rfl, rfl⟩, fun m0 hm0 hkey =>
      absurd hkey (hnone m0 hm0)⟩
    unfold countKey
    rw [List.filter_append, List.length_append, hzero]
    simp [matchKeyP]
  | some m0 =>
    simp only [hfind] at hup
    rw [Prod.mk.injEq] at hup
    obtain ⟨h1, h2⟩ := hup
    subst h1
    subst h2
    have hkey0 : matchKeyP cid sid m0 = true := List.find?_some hfind
    have hmem0 : m0 ∈ db := List.mem_of_find?_eq_some hfind
    have hmemf : m0 ∈ db.filter (matchKeyP cid sid) := List.mem_filter.mpr ⟨hmem0, hkey0⟩
    have hone : countKey db cid sid = 1 := by
      refine le_antisymm hinv ?_
      exact List.length_pos.mpr (List.ne_nil_of_mem hmemf)
    have hkeym : matchKeyP cid sid
        (⟨m0.missing_person, m0.source_image, conf, pyRound 6 (1 - conf), hitl,
          m0.status⟩ : FacialMatch) = true := by
      simp only [matchKeyP, decide_eq_true_eq] at hkey0 ⊢
      exact hkey0
    have huniq : ∀ m1 ∈ db, matchKeyP cid sid m1 = true → m1 = m0 := by
      intro m1 hm1 hkey1
      have hmemf1 : m1 ∈ db.filter (matchKeyP cid sid) := List.mem_filter.mpr ⟨hm1, hkey1⟩
      rw [countKey] at hone
      obtain ⟨a, ha⟩ := List.length_eq_one.mp hone
      rw [ha] at hmemf hmemf1
      simp only [List.mem_singleton] at hmemf hmemf1
      rw [hmemf1, hmemf]
    refine ⟨?_, fun hzero => by omega, fun m1 hm1 hkey1 => ?_⟩
    · rw [countKey] at hone ⊢
      rw [filter_length_replaceFirst _ _ hkeym, hone]
    · obtain rfl := huniq m1 hm1 hkey1
      exact ⟨length_replaceFirst _ _ _, rfl, rfl, rfl, rfl⟩

/-- Witness for `match_ledger_upsert`: upserting into an empty table (the
invariant `count ≤ 1` holds trivially) creates the single `pending_review`
row. -/
theorem match_ledger_upsert_witness :
    countKey [] 7 1 = 0
    ∧ ∀ db' m, upsertMatch [] 7 1 (3/4) true = (db', m) →
        countKey db' 7 1 = 1
        ∧ (countKey [] 7 1 = 0 →
            db' = [] ++ [m] ∧ m.status = MatchStatus.pending_review
            ∧ m.requires_human_review = true ∧ m.match_confidence = 3/4
            ∧ m.missing_person = 7 ∧ m.source_image = 1) :=
  ⟨rfl, fun db' m hup =>
    ⟨(match_ledger_upsert [] 7 1 (3/4) true (by decide) db' m hup).1,
     (match_ledger_upsert [] 7 1 (3/4) true (by decide) db' m hup).2.1⟩⟩

section MatcherLemmas

variable (sim : List ℚ → List ℚ → ℚ) (q : List ℚ)

/-- One scan step, expressed through `hasUsableEmbedding` / `imgScore`. -/
lemma searchLoop_cons (i : DbImage) (rest : List DbImage) (b : Option DbImage) (v : ℚ) :
    searchLoop sim q (i :: rest) (b, v) =
      if hasUsableEmbedding i then
        (if v < imgScore sim q i then searchLoop sim q rest (some i, imgScore sim q i)
         else searchLoop sim q rest (b, v))
      else searchLoop sim q rest (b, v) := by
  cases him : i.face_embedding with
  | none => simp [searchLoop, hasUsableEmbedding, him]
  | some emb =>
    by_cases hemb : emb = [] <;>
      simp [searchLoop, hasUsableEmbedding, him, hemb, imgScore]

/-- Unfolding `maxFrom` over a cons cell. -/
lemma maxFrom_cons (i : DbImage) (rest : List DbImage) (v : ℚ) :
    maxFrom sim q v (i :: rest) =
      if hasUsableEmbedding i then maxFrom sim q (max v (imgScore sim q i)) rest
      else maxFrom sim q v rest := by
  by_cases hu : hasUsableEmbedding i <;> simp [maxFrom, List.filter_cons, hu]

/-- The scan's final `best_confidence` is the compared similarities folded by
`max` from the initial accumulator. -/
lemma searchLoop_snd : ∀ (l : List DbImage) (b : Option DbImage) (v : ℚ),
    (searchLoop sim q l (b, v)).2 = maxFrom sim q v l := by
  intro l
  induction l with
  | nil => intro b v; rfl
  | cons j rest ih =>
    intro b v
    rw [searchLoop_cons, maxFrom_cons]
    by_cases hu : hasUsableEmbedding j
    · simp only [hu, if_true]
      by_cases hlt : v < imgScore sim q j
      · rw [if_pos hlt, ih, max_eq_right hlt.le]
      · rw [if_neg hlt, ih, max_eq_left (not_lt.mp hlt)]
    · simp only [hu, if_false]
      simp only [Bool.false_eq_true, if_false]
      exact ih b v

/-- The initial accumulator bounds `maxFrom` from below. -/
lemma le_maxFrom : ∀ (l : List DbImage) (v : ℚ), v ≤ maxFrom sim q v l := by
  intro l
  induction l with
  | nil => intro v; exact le_refl v
  | cons i rest ih =>
    intro v
    rw [maxFrom_cons]
    split
    · exact le_trans (le_max_left _ _) (ih _)
    · exact ih v

/-- Every compared similarity is bounded by `maxFrom`. -/
lemma score_le_maxFrom : ∀ (l : List DbImage) (v : ℚ) (i : DbImage),
    i ∈ l.filter hasUsableEmbedding → imgScore sim q i ≤ maxFrom sim q v l := by
  intro l
  induction l with
  | nil => intro v i hi; simp at hi
  | cons j rest ih =>
    intro v i hi
    rw [List.filter_cons] at hi
    rw [maxFrom_cons]
    by_cases hu : hasUsableEmbedding j
    · simp only [hu, if_true] at hi ⊢
      rcases List.mem_cons.mp hi with rfl | hi
      · exact le_trans (le_max_right _ _) (le_maxFrom sim q rest _)
      · exact ih _ i hi
    · simp only [hu, if_false] at hi ⊢
      simp only [Bool.false_eq_true, if_false] at hi
      exact ih v i hi

/-- Lemma: `maxFrom` is either the initial accumulator or attained by a compared row. -/
lemma maxFrom_attained : ∀ (l : List DbImage) (v : ℚ),
    maxFrom sim q v l = v
    ∨ ∃ i ∈ l.filter hasUsableEmbedding, imgScore sim q i = maxFrom sim q v l := by
  intro l
  induction l with
  | nil => intro v; exact Or.inl rfl
  | cons j rest ih =>
    intro v
    rw [maxFrom_cons]
    by_cases hu : hasUsableEmbedding j
    · simp only [hu, if_true]
      rcases ih (max v (imgScore sim q j)) with h | ⟨i, hi, hsc⟩
      · rcases max_choice v (imgScore sim q j) with hm | hm
        · exact Or.inl (by rw [h, hm])
        · refine Or.inr ⟨j, ?_, by rw [h, hm]⟩
          rw [List.filter_cons]
          simp [hu]
      · refine Or.inr ⟨i, ?_, hsc⟩
        rw [List.filter_cons]
        simp only [hu, if_true]
        exact List.mem_cons_of_mem j hi
    · simp only [hu, if_false]
      simp only [Bool.false_eq_true, if_false]
      rcases ih v with h | ⟨i, hi, hsc⟩
      · exact Or.inl h
      · refine Or.inr ⟨i, ?_, hsc⟩
        rw [List.filter_cons]
        simp [hu, hi]

/-- The scan's final best row: when some compared similarity strictly exceeds
the initial accumulator, the loop returns the first-encountered row attaining
the maximum; otherwise the accumulator row survives. -/
lemma searchLoop_fst : ∀ (l : List DbImage) (b : Option DbImage) (v : ℚ),
    (v < maxFrom sim q v l →
      (searchLoop sim q l (b, v)).1 = firstAtMax sim q l (maxFrom sim q v l))
    ∧ (maxFrom sim q v l ≤ v → (searchLoop sim q l (b, v)).1 = b) := by
  intro l
  induction l with
  | nil =>
    intro b v
    exact ⟨fun h => absurd h (lt_irrefl v), fun _ => rfl⟩
  | cons j rest ih =>
    intro b v
    rw [searchLoop_cons, maxFrom_cons]
    by_cases hu : hasUsableEmbedding j
    · simp only [hu, if_true]
      unfold firstAtMax
      rw [List.filter_cons]
      simp only [hu, if_true]
      by_cases hlt : v < imgScore sim q j
      · rw [if_pos hlt]
        have hmax : max v (imgScore sim q j) = imgScore sim q j := max_eq_right hlt.le
        rw [hmax]
        constructor
        · intro _
          rcases lt_or_le (imgScore sim q j) (maxFrom sim q (imgScore sim q j) rest) with hlt2 | hle2
          · rw [(ih (some j) (imgScore sim q j)).1 hlt2]
            rw [List.find?_cons_of_neg]
            · rfl
            · simp only [decide_eq_true_eq]
              exact ne_of_lt hlt2
          · have heq : maxFrom sim q (imgScore sim q j) rest = imgScore sim q j :=
              le_antisymm hle2 (le_maxFrom sim q rest _)
            rw [(ih (some j) (imgScore sim q j)).2 hle2]
            rw [List.find?_cons_of_pos]
            simp only [decide_eq_true_eq]
            exact heq.symm
        · intro hle
          exact absurd (lt_of_lt_of_le hlt (le_maxFrom sim q rest _)) (not_lt.mpr hle)
      · rw [if_neg hlt]
        have hmax : max v (imgScore sim q j) = v := max_eq_left (not_lt.mp hlt)
        rw [hmax]
        constructor
        · intro hv
          rw [(ih b v).1 hv]
          rw [List.find?_cons_of_neg]
          · rfl
          · simp only [decide_eq_true_eq]
            exact ne_of_lt (lt_of_le_of_lt (not_lt.mp hlt) hv)
        · exact (ih b v).2
    · simp only [hu, if_false]
      simp only [Bool.false_eq_true, if_false]
      unfold firstAtMax
      rw [List.filter_cons]
      simp only [hu]
      simp only [Bool.false_eq_true, if_false]
      exact ih b v

end MatcherLemmas

/-- Claim C7:  For every query embedding and population, the search selects the
candidate with maximum similarity, first-encountered winning ties (the scan
only replaces its best on a strictly greater similarity), and a `FacialMatch`
is persisted with a match reported iff that maximum clears the `0.50` floor;
below the floor the table is untouched and no match is reported.  `sim`
abstracts `_cosine_similarity`, whose outputs are clamped to `[0, 1]`
(hypothesis `hclamp`). -/
theorem matcher_first_max_and_floor (sim : List ℚ → List ℚ → ℚ) (q : List ℚ)
    (raw : String) (images : List DbImage) (matchesDb : List FacialMatch)
    (_hclamp : ∀ i ∈ (eligibleImages images).filter hasUsableEmbedding,
      0 ≤ imgScore sim q i ∧ imgScore sim q i ≤ 1) :
    ∃ r, search_facial_recognition sim ⟨true, raw, some q⟩ images matchesDb =
        SearchOutcome.ok r
      ∧ (r.match_found = true ↔
          ∃ i ∈ (eligibleImages images).filter hasUsableEmbedding,
            (0.50 : ℚ) ≤ imgScore sim q i)
      ∧ ((0.50 : ℚ) ≤ maxFrom sim q 0 (eligibleImages images) →
          ∀ i, firstAtMax sim q (eligibleImages images)
              (maxFrom sim q 0 (eligibleImages images)) = some i →
            r.best_confidence = maxFrom sim q 0 (eligibleImages images)
            ∧ r.best_match = some (upsertMatch matchesDb i.missing_person i.id
                (maxFrom sim q 0 (eligibleImages images))
                (determine_hitl (maxFrom sim q 0 (eligibleImages images)))).2
            ∧ r.matchTable = (upsertMatch matchesDb i.missing_person i.id
                (maxFrom sim q 0 (eligibleImages images))
                (determine_hitl (maxFrom sim q 0 (eligibleImages images)))).1)
      ∧ (maxFrom sim q 0 (eligibleImages images) < (0.50 : ℚ) →
          r.match_found = false ∧ r.matchTable = matchesDb ∧ r.best_match = none) := by
  set pop := eligibleImages images with hpopdef
  set M := maxFrom sim q 0 pop with hMdef
  cases hscan : searchLoop sim q pop (none, 0) with
  | mk f s =>
  have hs : s = M := by
    have h := searchLoop_snd sim q pop none 0
    rw [hscan] at h
    exact h
  subst hs
  cases f with
  | none =>
    have hM0 : M = 0 := by
      by_contra hne
      have h0 : 0 < M := lt_of_le_of_ne (le_maxFrom sim q pop 0) (Ne.symm hne)
      have hf := (searchLoop_fst sim q pop none 0).1 h0
      rw [hscan] at hf
      have hf2 : firstAtMax sim q pop (maxFrom sim q 0 pop) = none := hf.symm
      unfold firstAtMax at hf2
      rcases maxFrom_attained sim q pop 0 with h | ⟨i, hi, hsc⟩
      · exact hne h
      · have hnone := List.find?_eq_none.mp hf2 i hi
        simp only [decide_eq_true_eq] at hnone
        exact hnone hsc
    have hnomatch : ¬ ∃ i ∈ pop.filter hasUsableEmbedding,
        (0.50 : ℚ) ≤ imgScore sim q i := by
      rintro ⟨i, hi, h05⟩
      have hle := score_le_maxFrom sim q pop 0 i hi
      rw [← hMdef, hM0] at hle
      linarith
    have hev : search_facial_recognition sim ⟨true, raw, some q⟩ images matchesDb =
        SearchOutcome.ok
          { consent_given := parseConsent raw,
            total_candidates_searched := pop.length, match_found := false,
            matchTable := matchesDb, best_match := none, best_confidence := M } := by
      unfold search_facial_recognition
      dsimp only
      rw [← hpopdef, hscan]
      rw [if_neg (show ¬ (true = false) by simp)]
    refine ⟨_, hev, ?_, ?_, ?_⟩
    · exact iff_of_false (by simp) hnomatch
    · intro h05
      rw [hM0] at h05
      norm_num at h05
    · intro _
      exact ⟨rfl, rfl, rfl⟩
  | some img =>
    rcases le_or_lt (0.50 : ℚ) M with h05 | h05
    · have h0 : 0 < M := lt_of_lt_of_le (by norm_num) h05
      have hf := (searchLoop_fst sim q pop none 0).1 h0
      rw [hscan] at hf
      have hev : search_facial_recognition sim ⟨true, raw, some q⟩ images matchesDb =
          SearchOutcome.ok
            { consent_given := parseConsent raw,
              total_candidates_searched := pop.length, match_found := true,
              matchTable := (upsertMatch matchesDb img.missing_person img.id M
                (determine_hitl M)).1,
              best_match := some (upsertMatch matchesDb img.missing_person img.id M
                (determine_hitl M)).2,
              best_confidence := M } := by
        unfold search_facial_recognition
        dsimp only
        rw [← hpopdef, hscan]
        rw [if_neg (show ¬ (true = false) by simp)]
        dsimp only
        rw [if_pos h05]
      refine ⟨_, hev, ?_, ?_, ?_⟩
      · refine iff_of_true rfl ?_
        rcases maxFrom_attained sim q pop 0 with h | ⟨i, hi, hsc⟩
        · exact absurd h0 (by rw [hMdef, h]; norm_num)
        · exact ⟨i, hi, by rw [hsc, ← hMdef]; exact h05⟩
      · intro _ i hi
        rw [hi] at hf
        obtain rfl : img = i := Option.some_inj.mp hf
        exact ⟨rfl, rfl, rfl⟩
      · intro hlt
        exact absurd h05 (not_le.mpr hlt)
    · have hnomatch : ¬ ∃ i ∈ pop.filter hasUsableEmbedding,
          (0.50 : ℚ) ≤ imgScore sim q i := by
        rintro ⟨i, hi, hi05⟩
        have := score_le_maxFrom sim q pop 0 i hi
        rw [← hMdef] at this
        linarith
      have hev : search_facial_recognition sim ⟨true, raw, some q⟩ images matchesDb =
          SearchOutcome.ok
            { consent_given := parseConsent raw,
              total_candidates_searched := pop.length, match_found := false,
              matchTable := matchesDb, best_match := none, best_confidence := M } := by
        unfold search_facial_recognition
        dsimp only
        rw [← hpopdef, hscan]
        rw [if_neg (show ¬ (true = false) by simp)]
        dsimp only
        rw [if_neg (not_le.mpr h05)]
      refine ⟨_, hev, ?_, ?_, ?_⟩
      · exact iff_of_false (by simp) hnomatch
      · intro h05'
        exact absurd h05' (not_le.mpr h05)
      · intro _
        exact ⟨rfl, rfl, rfl⟩

/-- Claim C9: For every open search session, closing with `finalize` marks the
attached `FacialMatch` verified and drives that match's case to `CLOSED`,
while closing with `save`, `search_again` or `no_match` records the action and
closes the session leaving the case and the match unchanged. -/
theorem session_closure_effects (tzNow : Nat) (s : Session) (notes : String)
    (m0 : FacialMatch) (mOpt : Option FacialMatch) (c : MissingPerson)
    (hopen : s.is_closed = false) :
    (∃ m' c', closeSessionView tzNow s "finalize" notes (some m0) c =
        Except.ok
          ({ s with
              is_closed := true, closure_action := some "finalize",
              closure_notes := notes, closed_at := some tzNow }, some m', c')
      ∧ m' = { m0 with status := MatchStatus.verified }
      ∧ c'.status = CaseStatus.CLOSED)
    ∧ (∀ a ∈ (["save", "search_again", "no_match"] : List String),
        closeSessionView tzNow s a notes mOpt c =
          Except.ok
            ({ s with
                is_closed := true, closure_action := some a,
                closure_notes := notes, closed_at := some tzNow }, mOpt, c)) := by
  constructor
  · refine ⟨{ m0 with status := MatchStatus.verified },
      missingPersonSave tzNow { c with status := CaseStatus.CLOSED }, ?_, rfl, ?_⟩
    · unfold closeSessionView close_session
      rw [hopen]
      rw [if_neg (by simp : ¬ (false = true))]
      rw [if_neg (by decide :
        ¬ ("finalize" ∉ (["save", "finalize", "search_again", "no_match"] : List String)))]
      dsimp only
      rw [if_pos rfl]
    · rw [missingPersonSave_status]
  · intro a ha
    fin_cases ha <;>
    · unfold closeSessionView close_session
      rw [hopen]
      rw [if_neg (by simp : ¬ (false = true))]
      rw [if_neg (by decide)]
      dsimp only
      rw [if_neg (by decide)]

/-- Witness for `session_closure_effects`: a fresh open session holding a
pending match on a `MATCH_FOUND` case, finalized at time 6. -/
theorem session_closure_effects_witness :
    ∃ m' c', closeSessionView 6 ⟨false, none, "", none⟩ "finalize" "ok"
        (some ⟨7, 1, 1, 0, false, MatchStatus.pending_review⟩)
        ⟨CaseStatus.MATCH_FOUND, false, false, none, some 1825, some 0⟩ =
        Except.ok
          (⟨true, some "finalize", "ok", some 6⟩, some m', c')
      ∧ m' = ⟨7, 1, 1, 0, false, MatchStatus.verified⟩
      ∧ c'.status = CaseStatus.CLOSED := by
  obtain ⟨h1, _⟩ := session_closure_effects 6 ⟨false, none, "", none⟩ "ok"
    ⟨7, 1, 1, 0, false, MatchStatus.pending_review⟩ none
    ⟨CaseStatus.MATCH_FOUND, false, false, none, some 1825, some 0⟩ rfl
  exact h1

/-- The variance-check loop accumulates exactly one alert `(axis, spread)` for
each axis whose spread exceeds the limit, in axis order. -/
lemma varianceAlerts_go (preds : List Pred) :
    ∀ (axes : List String) (acc : List (String × ℚ)),
      axes.foldl (varianceStep preds) acc =
        acc ++ (axes.filter
            (fun a => decide (MAX_BIAS_VARIANCE < axisSpread preds a))).map
          (fun a => (a, axisSpread preds a)) := by
  intro axes
  induction axes with
  | nil => intro acc; simp
  | cons a rest ih =>
    intro acc
    rw [List.foldl_cons, List.filter_cons]
    by_cases hlen : (axisAccuracies preds a).length < 2
    · have hs : axisSpread preds a = 0 := by
        unfold axisSpread
        rw [if_pos hlen]
      have hcond : ¬ MAX_BIAS_VARIANCE < axisSpread preds a := by
        rw [hs]
        unfold MAX_BIAS_VARIANCE
        norm_num
      have hstep : varianceStep preds acc a = acc := by
        unfold varianceStep
        rw [if_pos hlen]
      rw [hstep, ih, decide_eq_false hcond]
      simp
    · have hspread : axisSpread preds a =
          listMax (axisAccuracies preds a) - listMin (axisAccuracies preds a) := by
        unfold axisSpread
        rw [if_neg hlen]
      by_cases hv : MAX_BIAS_VARIANCE <
          listMax (axisAccuracies preds a) - listMin (axisAccuracies preds a)
      · have hstep : varianceStep preds acc a =
            acc ++ [(a, listMax (axisAccuracies preds a) - listMin (axisAccuracies preds a))] := by
          unfold varianceStep
          rw [if_neg hlen, if_pos hv]
        rw [hstep, ih, decide_eq_true (by rw [hspread]; exact hv)]
        simp [hspread]
      · have hstep : varianceStep preds acc a = acc := by
          unfold varianceStep
          rw [if_neg hlen, if_neg hv]
        rw [hstep, ih, decide_eq_false (by rw [hspread]; exact hv)]
        simp

/-- Claim C6: For every non-empty prediction list, the audit succeeds and
`audit_passed` is true iff, on each of the three axes, the spread of group
accuracies over sampled groups is at most the 2% limit; the alert list holds
exactly one entry naming the axis and its spread for each axis whose spread
exceeds the limit. -/
theorem bias_audit_pass_iff (preds : List Pred) (hne : preds ≠ []) :
    ∃ r, disaggregated_evaluation preds = Except.ok r
      ∧ (r.audit_passed = true ↔
          ∀ axis ∈ (["gender", "skin_type", "age_group"] : List String),
            axisSpread preds axis ≤ MAX_BIAS_VARIANCE)
      ∧ r.alerts =
          ((["gender", "skin_type", "age_group"] : List String).filter
            (fun a => decide (MAX_BIAS_VARIANCE < axisSpread preds a))).map
            (fun a => (a, axisSpread preds a)) := by
  refine ⟨{ total_samples := preds.length,
            global_metrics := compute_group_metrics preds,
            by_gender := evaluate_axis preds "gender",
            by_skin_type := evaluate_axis preds "skin_type",
            by_age_group := evaluate_axis preds "age_group",
            alerts := variance_alerts preds,
            audit_passed := decide ((variance_alerts preds).length = 0) }, ?_, ?_, ?_⟩
  · unfold disaggregated_evaluation
    rw [if_neg hne]
  · show decide ((variance_alerts preds).length = 0) = true ↔ _
    rw [decide_eq_true_eq]
    unfold variance_alerts
    rw [varianceAlerts_go]
    simp only [List.nil_append, List.length_map, List.length_eq_zero,
      List.filter_eq_nil_iff, decide_eq_true_eq, not_lt]
  · show variance_alerts preds = _
    unfold variance_alerts
    rw [varianceAlerts_go]
    simp

/-- Witness for `bias_audit_pass_iff`: two one-sample gender groups, one
predicted right and one wrong — gender accuracies 1 and 0, spread 1 above the
2% limit. -/
theorem bias_audit_pass_iff_witness :
    ([⟨1, 1, 9/10, "male", "fitzpatrick_i", "adult"⟩,
      ⟨0, 1, 9/10, "female", "fitzpatrick_i", "adult"⟩] : List Pred) ≠ []
    ∧ ∃ r, disaggregated_evaluation
          [⟨1, 1, 9/10, "male", "fitzpatrick_i", "adult"⟩,
           ⟨0, 1, 9/10, "female", "fitzpatrick_i", "adult"⟩] = Except.ok r
        ∧ (r.audit_passed = true ↔
            ∀ axis ∈ (["gender", "skin_type", "age_group"] : List String),
              axisSpread
                [⟨1, 1, 9/10, "male", "fitzpatrick_i", "adult"⟩,
                 ⟨0, 1, 9/10, "female", "fitzpatrick_i", "adult"⟩] axis
                ≤ MAX_BIAS_VARIANCE)
        ∧ r.alerts =
            ((["gender", "skin_type", "age_group"] : List String).filter
              (fun a => decide (MAX_BIAS_VARIANCE < axisSpread
                [⟨1, 1, 9/10, "male", "fitzpatrick_i", "adult"⟩,
                 ⟨0, 1, 9/10, "female", "fitzpatrick_i", "adult"⟩] a))).map
              (fun a => (a, axisSpread
                [⟨1, 1, 9/10, "male", "fitzpatrick_i", "adult"⟩,
                 ⟨0, 1, 9/10, "female", "fitzpatrick_i", "adult"⟩] a)) :=
  ⟨List.cons_ne_nil _ _, bias_audit_pass_iff _ (List.cons_ne_nil _ _)⟩

/-- Witness for `matcher_first_max_and_floor`: a constant similarity of `3/4`
(clamped into `[0, 1]`) over a single-row population. -/
theorem matcher_first_max_and_floor_witness :
    (∀ i ∈ (eligibleImages [⟨1, 7, "completed", some [2]⟩]).filter hasUsableEmbedding,
        0 ≤ imgScore (fun _ _ => (3/4 : ℚ)) [5] i
        ∧ imgScore (fun _ _ => (3/4 : ℚ)) [5] i ≤ 1)
    ∧ ∃ r, search_facial_recognition (fun _ _ => (3/4 : ℚ)) ⟨true, "yes", some [5]⟩
          [⟨1, 7, "completed", some [2]⟩] [] = SearchOutcome.ok r
        ∧ (r.match_found = true ↔
            ∃ i ∈ (eligibleImages [⟨1, 7, "completed", some [2]⟩]).filter
                hasUsableEmbedding,
              (0.50 : ℚ) ≤ imgScore (fun _ _ => (3/4 : ℚ)) [5] i) := by
  have hcl : ∀ i ∈ (eligibleImages [⟨1, 7, "completed", some [2]⟩]).filter
      hasUsableEmbedding,
      0 ≤ imgScore (fun _ _ => (3/4 : ℚ)) [5] i
      ∧ imgScore (fun _ _ => (3/4 : ℚ)) [5] i ≤ 1 := by
    intro i _
    constructor <;> norm_num [imgScore]
  obtain ⟨r, h1, h2, _, _⟩ := matcher_first_max_and_floor (fun _ _ => (3/4 : ℚ)) [5]
    "yes" [⟨1, 7, "completed", some [2]⟩] [] hcl
  exact ⟨hcl, r, h1, h2⟩

/-- Witness for `unknown_role_signature`: a `MATCH_FOUND` case with no
signatures, signed by the unknown role `government_official`. -/
theorem unknown_role_signature_witness :
    ∃ c', toggle_signature 4
        ⟨CaseStatus.MATCH_FOUND, false, false, none, some 1825, some 0⟩
        "government_official" =
        Except.ok (c', false, [AuditAction.signatureAdded "government_official"])
      ∧ c'.dual_signature_family = false
      ∧ c'.dual_signature_police = false
      ∧ c'.status = CaseStatus.PENDING_CLOSURE :=
  unknown_role_signature 4 ⟨CaseStatus.MATCH_FOUND, false, false, none, some 1825, some 0⟩
    "government_official" (Or.inl rfl) (by decide) (by decide)

end SuraSmart
